import Mathlib

/-! Verification development for the uninttp single-header library
    (src/uninttp/uni_auto.hpp, v4.0.1).

    The C++ adapter `uni_auto` is shallowly embedded:
    * each template specialization becomes a Lean structure
      (`uni_auto<const T[N]>` → `uni_auto_array`, `uni_auto<T&>` →
      `uni_auto_ref`, the non-class `uni_auto<T>` → `uni_auto_scalar`,
      the class `uni_auto<T>` → `uni_auto_cls` / `uni_auto_Point`);
    * C++ references are addresses into an explicit store
      (`Store α = Addr → α`), and mutating forwarded operators become
      store-transforming functions that also return the (unchanged)
      adapter, mirroring the fact that all these members are `const`;
    * the deduction guides (header lines 256-278) together with the
      `requires` clauses of the specializations become the total
      classification function `classify`;
    * the implicit conversion `operator type()` of each specialization
      becomes a `toNative` function. -/

namespace Uninttp

/-- Storage categories of the adapter, as named by the specification:
`scalar` and `classInstance` are the two non-reference `uni_auto<T>`
specializations, `mutableRef` is `uni_auto<T&>` with non-const `T`,
`constRef` is `uni_auto<T&>` with const `T` (selected by the last
deduction guide), and `array n` is `uni_auto<const T[N]>`. -/
inductive Category where
  | scalar
  | mutableRef
  | array (n : Nat)
  | classInstance
  | constRef
deriving DecidableEq, Repr

/-- Shape of a constructor argument, carrying exactly the information the
deduction guides at lines 256-278 discriminate on.
`constArrayLit n` is a const lvalue of built-in array type `const T[N]`
(including string literals); `lvalue isConst isCls trivCond` is a
non-array lvalue, where `isCls` records `std::is_class_v` of its type and
`trivCond` records the compound `requires` clause of the guide at lines
266-275 (not an excluded character-pointer type, not volatile, not a
`string_view`, trivially copyable, with scalar/class/function pointee);
`rvalue isCls` is an rvalue. -/
inductive CppShape where
  | constArrayLit (n : Nat)
  | lvalue (isConst : Bool) (isCls : Bool) (trivCond : Bool)
  | rvalue (isCls : Bool)
deriving DecidableEq, Repr

/-- Category selected for a given argument shape, translated from the
deduction guides at lines 256-278 and the `requires` clauses of the
specializations: a const array lvalue matches the array guide; a
non-const lvalue matches `uni_auto(T&) -> uni_auto<T&>` (an exact match,
preferred over the `const T&` guides), giving the reference
specialization regardless of whether `T` is a class; a const lvalue
matches `uni_auto(const T&) -> uni_auto<const T>` when the line-267
condition holds (then `uni_auto<T>` dispatches on `std::is_class_v<T>`)
and otherwise falls through to `uni_auto(const T&) -> uni_auto<const T&>`;
an rvalue matches `uni_auto(T&&) -> uni_auto<T>`, again dispatching on
`std::is_class_v<T>`. -/
def classify : CppShape → Category
  | .constArrayLit n => .array n
  | .lvalue false _ _ => .mutableRef
  | .lvalue true isCls trivCond =>
      if trivCond then (if isCls then .classInstance else .scalar)
      else .constRef
  | .rvalue isCls => if isCls then .classInstance else .scalar

/-- Addresses of caller-owned storage aliased by reference adapters. -/
abbrev Addr := Nat

/-- Mutable memory: a total map from addresses to values. -/
abbrev Store (α : Type) := Addr → α

/-- Reading a C++ reference bound to address `r` in store `s`. -/
def readRef {α : Type} (s : Store α) (r : Addr) : α := s r

/-- Writing through a C++ reference bound to address `r` in store `s`. -/
def writeRef {α : Type} (s : Store α) (r : Addr) (w : α) : Store α :=
  fun m => if m = r then w else s m

/-- Embedding of `uni_auto<T&>` (header lines 131-224): the adapter holds
a reference — here, the address of the aliased caller-owned datum — fixed
by the constructor `uni_auto(type v) : value{ v }` at line 136. -/
structure uni_auto_ref where
  addr : Addr
deriving DecidableEq, Repr

/-- Embedding of `uni_auto<T&>::operator type()` (lines 138-140): the
conversion returns the held reference `value`, i.e. the aliased address. -/
def uni_auto_ref.toNative (a : uni_auto_ref) : Addr := a.addr

/-- Embedding of `operator+(const uni_auto<T>&, U&&)` (lines 849-854) for
a reference adapter over an additive store: it converts the adapter to its
native reference, reads it, and adds the right operand, leaving the store
untouched. -/
def refAdd {α : Type} [Add α] (s : Store α) (a : uni_auto_ref) (b : α) : α :=
  readRef s a.toNative + b

/-- Embedding of `operator+=(const uni_auto<T>&, U&&)` (lines 779-784) for
a reference adapter: `a.operator type() += b` adds into the aliased datum.
The second component is the adapter after the call; the C++ operator takes
`a` by const reference, so the adapter object itself is unchanged. -/
def refAddAssign {α : Type} [Add α] (s : Store α) (a : uni_auto_ref) (b : α) :
    Store α × uni_auto_ref :=
  (writeRef s a.toNative (readRef s a.toNative + b), a)

/-- Embedding of `uni_auto<T&>::operator=` (lines 202-206): assignment
through the adapter writes through the held reference; the member is
`const`, so the adapter itself (second component) is unchanged. -/
def refAssign {α : Type} (s : Store α) (a : uni_auto_ref) (w : α) :
    Store α × uni_auto_ref :=
  (writeRef s a.toNative w, a)

/-- Embedding of `uni_auto<T&>::swap` (lines 147-150): `std::swap(value,
other.value)` exchanges the contents of the two referenced objects, in
the usual temporary-copy sequence. -/
def refSwap {α : Type} (s : Store α) (a b : uni_auto_ref) : Store α :=
  let tmp := readRef s a.toNative
  let s1 := writeRef s a.toNative (readRef s b.toNative)
  writeRef s1 b.toNative tmp

/-- A swap call together with the two adapters as the caller still sees
them afterwards: `swap` takes both adapters by const reference, so both
are returned unchanged. -/
def uniSwap {α : Type} (s : Store α) (a b : uni_auto_ref) :
    Store α × uni_auto_ref × uni_auto_ref :=
  (refSwap s a b, a, b)

/-- Modelled from the spec: the claim wording for swap on MutableRef
adapters, "exchanges which datum the two adapters alias" — after the
call the first adapter would alias the second adapter's datum and vice
versa, the store itself being untouched. Written only to be compared
against the source-derived `uniSwap`. -/
def specSwapAliases {α : Type} (s : Store α) (a b : uni_auto_ref) :
    Store α × uni_auto_ref × uni_auto_ref :=
  (s, b, a)

/-- Embedding of `uni_auto<const T[N]>` (header lines 72-129): the adapter
owns an array of `N` elements. -/
structure uni_auto_array (α : Type) (n : Nat) where
  value : Fin n → α

/-- Embedding of the constructors at lines 77-80: `value{ v[Indices]... }`
copies the source array element by element via an index sequence. -/
def uni_auto_array.mk_copy {α : Type} {n : Nat} (v : Fin n → α) :
    uni_auto_array α n :=
  ⟨fun i => v i⟩

/-- Embedding of `uni_auto<const T[N]>::operator type()` (lines 82-84):
the conversion returns a reference to the owned array. -/
def uni_auto_array.toNative {α : Type} {n : Nat} (a : uni_auto_array α n) :
    Fin n → α := a.value

/-- Embedding of `uni_auto<const T[N]>::size()` (lines 86-88): a static
member returning the template parameter `N`. -/
def uni_auto_array.size {α : Type} {n : Nat} (_ : uni_auto_array α n) :
    Nat := n

/-- Embedding of `uni_auto<const T[N]>::data()` (lines 90-92):
`std::data(value)` is the pointer to the first owned element; a pointer is
modelled as the map sending an offset `i` to the element it dereferences
to, `value[i]`. -/
def uni_auto_array.data {α : Type} {n : Nat} (a : uni_auto_array α n) :
    Fin n → α :=
  fun i => a.value i

/-- Embedding of `uni_auto_simplify_v` (lines 1014-1022) at an array
adapter: the stored value converted to the decayed type
`std::decay_t<const T(&)[N]> = const T*`, i.e. the array decayed to the
pointer to its first element. -/
def uni_auto_array.simplify {α : Type} {n : Nat} (a : uni_auto_array α n) :
    Fin n → α :=
  a.data

/-- The element sequence visited by iterating from `begin()` (line 98,
pointer to `value[0]`) up to `end()` (line 102, pointer past
`value[N-1]`): the owned elements in index order. -/
def uni_auto_array.iterate {α : Type} {n : Nat} (a : uni_auto_array α n) :
    List α :=
  List.ofFn a.value

/-- Embedding of `to_array` (lines 1062-1066): `std::to_array(a.value)`
builds an owned `std::array` by copying the `N` elements one by one. -/
def to_array {α : Type} {n : Nat} (a : uni_auto_array α n) : Fin n → α :=
  fun i => a.value i

/-- Embedding of the non-class `uni_auto<T>` specialization (lines
226-242): the adapter owns a copy of the scalar value. -/
structure uni_auto_scalar (α : Type) where
  value : α

/-- Embedding of the non-class `uni_auto<T>::operator type()` (lines
234-236): the conversion returns the stored value. -/
def uni_auto_scalar.toNative {α : Type} (a : uni_auto_scalar α) : α :=
  a.value

/-- Embedding of the class `uni_auto<T>` specialization (lines 244-254):
`struct uni_auto<T> final : T` inherits from the wrapped class, so the
adapter contains the class as a base subobject, here the field `base`. -/
structure uni_auto_cls (C : Type) where
  base : C

/-- Embedding of the constructor at line 249: `type{ v }` copy-constructs
the base subobject from the argument. -/
def uni_auto_cls.wrap {C : Type} (v : C) : uni_auto_cls C := ⟨v⟩

/-- Embedding of `operator const type&()` (lines 251-253): `return *this`
converts the adapter to a const reference to its class subobject. -/
def uni_auto_cls.toNative {C : Type} (a : uni_auto_cls C) : C := a.base

/-- Modelled from the spec: the `Point{x:int, y:int}` example class of the
class-embedding scenario, which is not part of the header itself. -/
structure Point where
  x : Nat
  y : Nat
deriving DecidableEq, Repr

/-- Modelled from the spec: the scenario's `magnitude()` method, the
Euclidean length of the point, 5 for a 3-4-5 triangle. -/
def Point.magnitude (p : Point) : Nat := Nat.sqrt (p.x * p.x + p.y * p.y)

/-- Embedding of the class `uni_auto<T>` specialization at `T = Point`:
the structural inheritance `struct uni_auto<Point> final : Point` is
rendered by Lean structure extension, so every member of `Point`
(fields and `magnitude`) is reachable directly on the adapter through
the parent projection, with no per-member forwarding code. -/
structure uni_auto_Point extends Point

/-- Embedding of the copy constructor at line 249 for `Point`. -/
def uni_auto_Point.wrap (p : Point) : uni_auto_Point := ⟨p⟩

/-- Embedding of `operator const type&()` for `Point`: the conversion to
the base-class subobject. -/
def uni_auto_Point.toNative (a : uni_auto_Point) : Point := a.toPoint

/-- Concrete store for the operator-transparency scenario: the integer
variable `x = 10` lives at address 0. -/
def store10 : Store Nat := fun m => if m = 0 then 10 else 0

/-- Concrete store for the swap scenarios: `x = 1` at address 0 and
`y = 2` at address 1. -/
def storeXY : Store Nat := fun m => if m = 0 then 1 else if m = 1 then 2 else 0

/-- Concrete array `[1, 2, 3]` for the array scenario. -/
def seq3 : Fin 3 → Nat := fun i => i.val + 1

/-- Claim C1: for every value of a supported shape — scalar, const array,
mutable lvalue reference, class instance — constructing the adapter and
converting it back to its native type via the implicit conversion
operator yields a value equal to the original: the stored scalar copy,
the element-wise array copy read back, the aliased datum read through the
returned reference, and the copied class subobject, respectively. -/
theorem C1_round_trip :
    (∀ (α : Type) (v : α), (uni_auto_scalar.mk v).toNative = v) ∧
    (∀ (α : Type) (n : Nat) (v : Fin n → α),
      (uni_auto_array.mk_copy v).toNative = v) ∧
    (∀ (α : Type) (s : Store α) (r : Addr),
      readRef s (uni_auto_ref.mk r).toNative = readRef s r) ∧
    (∀ (C : Type) (v : C), (uni_auto_cls.wrap v).toNative = v) :=
  ⟨fun _ _ => rfl, fun _ _ _ => rfl, fun _ _ _ => rfl, fun _ _ => rfl⟩

/-- Claim C2: with `x = 10` at address 0 aliased by the reference adapter
`a`, the forwarded `a + 5` evaluates to 15 while `x` still reads 10; the
forwarded `a += 5` leaves a store in which reading `x` directly yields 15
and leaves the adapter itself unchanged; and conversely a direct write of
99 to `x` is observed when reading through `a`. -/
theorem C2_operator_transparency :
    refAdd store10 ⟨0⟩ 5 = 15 ∧
    readRef store10 0 = 10 ∧
    readRef (refAddAssign store10 ⟨0⟩ 5).1 0 = 15 ∧
    (refAddAssign store10 ⟨0⟩ 5).2 = (⟨0⟩ : uni_auto_ref) ∧
    readRef (writeRef store10 0 99) (uni_auto_ref.mk 0).toNative = 99 := by
  decide

/-- Claim C3, counterexample: a value of class kind passed as a mutable
(non-const) lvalue reference is classified by the deduction guides as the
reference specialization `uni_auto<T&>`, not as the class-embedding
specialization, so the claim that every class-kind value — including one
passed as a mutable reference — selects the ClassInstance category is
false on the code. -/
theorem C3_counterexample :
    classify (CppShape.lvalue false true true) ≠ Category.classInstance := by
  decide

/-- Claim C3 as amended: a class-kind value selects the ClassInstance
category when passed as an owned value (rvalue), or as a const reference
satisfying the trivially-copyable guide condition; a const class
reference failing that condition selects the const-reference
specialization, and a mutable class lvalue selects the MutableRef
specialization. The ClassInstance adapter embeds the class as a base
subobject, so every observation of the class (every function of it)
passes through the adapter unchanged. -/
theorem C3_classification :
    classify (CppShape.rvalue true) = Category.classInstance ∧
    classify (CppShape.lvalue true true true) = Category.classInstance ∧
    classify (CppShape.lvalue false true true) = Category.mutableRef ∧
    classify (CppShape.lvalue false true false) = Category.mutableRef ∧
    classify (CppShape.lvalue true true false) = Category.constRef ∧
    (∀ (C β : Type) (f : C → β) (v : C),
      f (uni_auto_cls.wrap v).toNative = f v) :=
  ⟨rfl, rfl, rfl, rfl, rfl, fun _ _ _ _ => rfl⟩

/-- Claim C4: for every array adapter, the decayed view — `data()`, and
equally `uni_auto_simplify_v` — is the pointer to the first owned
element, whose first `N` dereferences are exactly the original array's
elements in their original order. -/
theorem C4_decay_correctness :
    ∀ (α : Type) (n : Nat) (v : Fin n → α),
      (uni_auto_array.mk_copy v).simplify = (uni_auto_array.mk_copy v).data ∧
      ∀ i : Fin n, (uni_auto_array.mk_copy v).data i = v i :=
  fun _ _ _ => ⟨rfl, fun _ => rfl⟩

/-- Claim C5, counterexample: for the two reference adapters aliasing
addresses 0 and 1, the source's swap leaves the first adapter aliasing
address 0 — it swaps the contents of the two referenced objects and never
rebinds a reference — whereas the claim's wording, that swap "exchanges
which datum the two adapters alias" (as written out in
`specSwapAliases`), would leave the first adapter aliasing address 1. -/
theorem C5_counterexample :
    (uniSwap storeXY ⟨0⟩ ⟨1⟩).2.1.addr ≠
      (specSwapAliases storeXY ⟨0⟩ ⟨1⟩).2.1.addr := by
  decide

/-- Claim C5 as amended: swapping two reference adapters exchanges the
values stored in the two aliased data item-for-item, leaves every other
address untouched, and leaves both adapters aliasing the same datum as
before; category and native type are type-level constants of the
specialization and are therefore unchanged as well. -/
theorem C5_swap_semantics :
    ∀ (α : Type) (s : Store α) (a b : uni_auto_ref),
      (uniSwap s a b).1 a.addr = s b.addr ∧
      (uniSwap s a b).1 b.addr = s a.addr ∧
      (∀ m : Addr, m ≠ a.addr → m ≠ b.addr → (uniSwap s a b).1 m = s m) ∧
      (uniSwap s a b).2.1 = a ∧
      (uniSwap s a b).2.2 = b := by
  intro α s a b
  refine ⟨?_, ?_, ?_, rfl, rfl⟩
  · by_cases h : a.addr = b.addr <;>
      simp [uniSwap, refSwap, writeRef, readRef, uni_auto_ref.toNative, h]
  · simp [uniSwap, refSwap, writeRef, readRef, uni_auto_ref.toNative]
  · intro m hma hmb
    simp [uniSwap, refSwap, writeRef, readRef, uni_auto_ref.toNative, hma, hmb]

/-- Witness for the amended claim C5 at the concrete swap scenario: the
frame condition instantiated at the untouched address 5. -/
theorem C5_swap_semantics_witness :
    (uniSwap storeXY ⟨0⟩ ⟨1⟩).1 5 = storeXY 5 :=
  (C5_swap_semantics Nat storeXY ⟨0⟩ ⟨1⟩).2.2.1 5 (by decide) (by decide)

/-- Claim C6: with reference adapters aliasing `x = 1` at address 0 and
`y = 2` at address 1, after invoking swap on the two adapters a direct
read of `x` yields 2 and a direct read of `y` yields 1. -/
theorem C6_swap_scenario :
    readRef (uniSwap storeXY ⟨0⟩ ⟨1⟩).1 0 = 2 ∧
    readRef (uniSwap storeXY ⟨0⟩ ⟨1⟩).1 1 = 1 := by
  decide

/-- Claim C7: wrapping `p = Point{3, 4}` in the class-embedding adapter
makes `magnitude` reachable directly on the adapter through the embedded
base subobject, with the same result as on `p` itself, namely 5. -/
theorem C7_class_embedding :
    (∀ p : Point, (uni_auto_Point.wrap p).magnitude = p.magnitude) ∧
    (uni_auto_Point.wrap ⟨3, 4⟩).magnitude = Point.magnitude ⟨3, 4⟩ ∧
    (uni_auto_Point.wrap ⟨3, 4⟩).magnitude = 5 :=
  ⟨fun _ => rfl, rfl, by
    show Nat.sqrt (3 * 3 + 4 * 4) = 5
    have h : (3 * 3 + 4 * 4 : Nat) = 5 * 5 := by norm_num
    rw [h, Nat.sqrt_eq]⟩

/-- Claim C8: for every array adapter, `size()` is the compile-time
element count `N`, which equals the length of the sequence produced by
iterating from `begin()` to `end()`; in particular the adapter wrapping
`[1, 2, 3]` has size 3 and iterates to `1, 2, 3` in order. -/
theorem C8_size_iteration :
    (∀ (α : Type) (n : Nat) (v : Fin n → α),
      (uni_auto_array.mk_copy v).size = n ∧
      (uni_auto_array.mk_copy v).iterate.length =
        (uni_auto_array.mk_copy v).size) ∧
    (uni_auto_array.mk_copy seq3).size = 3 ∧
    (uni_auto_array.mk_copy seq3).iterate = [1, 2, 3] := by
  refine ⟨fun α n v => ⟨rfl, ?_⟩, rfl, by decide⟩
  simp [uni_auto_array.iterate, uni_auto_array.size]

/-- Claim C9: `to_array` materializes an array adapter into an owned
collection whose elements equal the adapter's elements in order; the
result is an independent copy, so overwriting one of its slots takes
effect there while the adapter still converts to the original elements
unchanged. -/
theorem C9_to_array_materialization :
    ∀ (α : Type) (n : Nat) (v : Fin n → α) (i : Fin n) (w : α),
      (∀ j : Fin n, to_array (uni_auto_array.mk_copy v) j = v j) ∧
      Function.update (to_array (uni_auto_array.mk_copy v)) i w i = w ∧
      (∀ j : Fin n, (uni_auto_array.mk_copy v).toNative j = v j) := by
  intro α n v i w
  refine ⟨fun _ => rfl, ?_, fun _ => rfl⟩
  simp

/-- Claim C10: a reference adapter's alias binding is fixed at
construction and never rebinds: assignment, compound assignment and swap
each write through to the aliased datum (the new value is read back at
the same address), and each returns the adapter untouched, still aliasing
that same address. -/
theorem C10_alias_stability :
    ∀ (α : Type) [Add α] (s : Store α) (a b : uni_auto_ref) (w d : α),
      (refAssign s a w).2 = a ∧
      readRef (refAssign s a w).1 a.toNative = w ∧
      (refAddAssign s a d).2 = a ∧
      readRef (refAddAssign s a d).1 a.toNative = readRef s a.toNative + d ∧
      (uniSwap s a b).2.1 = a ∧
      (uniSwap s a b).2.2 = b := by
  intro α _ s a b w d
  refine ⟨rfl, ?_, rfl, ?_, rfl, rfl⟩
  · simp [refAssign, readRef, writeRef, uni_auto_ref.toNative]
  · simp [refAddAssign, readRef, writeRef, uni_auto_ref.toNative]

end Uninttp
